import Mathlib

/-!
# Verification of the WorkOfStan/web-pages-to-pdf capture pipeline

A shallow embedding of `src/pocket_export_pdf.py` in Lean 4, together with
theorems settling the specification claims about it.

External effects (filesystem, network, subprocesses) are modelled by an
environment of oracles (`Env`); Python exceptions that the code does not
catch are modelled by `Except PyExc`.
-/

namespace PocketExportPDF

/-! ## Characters and basic string helpers -/

/-- The characters removed by `sanitize_filename`
(the regex character class in line 37 of `pocket_export_pdf.py`). -/
def pyIllegal (c : Char) : Bool :=
  c == '\\' || c == '/' || c == '*' || c == '?' || c == ':' ||
  c == '"' || c == '<' || c == '>' || c == '|'

/-- ASCII whitespace as stripped by Python's `str.strip()`. -/
def pyWS (c : Char) : Bool :=
  c == ' ' || c == '\t' || c == '\n' || c == '\r' || c == '\x0b' || c == '\x0c'

/-- Python `str.strip()` on a character list: drop whitespace from both ends. -/
def pyStrip (l : List Char) : List Char :=
  ((l.dropWhile pyWS).reverse.dropWhile pyWS).reverse

/-- Embeds `sanitize_filename` (lines 35–37):
`re.sub(r'[\\/*?:"<>|]', "", name).strip()`. -/
def sanitize_filename (s : String) : String :=
  ⟨pyStrip (s.data.filter (fun c => !pyIllegal c))⟩

/-- `os.path.join` (POSIX) on character lists, for the two-argument calls
the script makes: an absolute second component replaces the first; otherwise
a separator is inserted unless the first component is empty or already ends
with one. -/
def pyJoinL (a b : List Char) : List Char :=
  if b.head? = some '/' then b
  else if a = [] then b
  else if a.getLast? = some '/' then a ++ b
  else a ++ '/' :: b

/-- `os.path.join` on strings. -/
def pyJoin (a b : String) : String := ⟨pyJoinL a.data b.data⟩

/-- Python `str.replace("www.", "")`: remove every (non-overlapping,
left-to-right) occurrence of `www.`, as in line 207. -/
def stripWWW : List Char → List Char
  | 'w' :: 'w' :: 'w' :: '.' :: rest => stripWWW rest
  | c :: rest => c :: stripWWW rest
  | [] => []

/-- Characters allowed in a URL scheme by `urllib.parse` (after the first,
which must be alphabetic). -/
def isSchemeChar (c : Char) : Bool :=
  c.isAlphanum || c == '+' || c == '-' || c == '.'

/-- Drop a leading `scheme:` from a URL, as `urllib.parse.urlparse` does when
the text before the first colon is a well-formed scheme. -/
def afterScheme (l : List Char) : List Char :=
  let pre := l.takeWhile (fun c => c != ':')
  if pre.length < l.length && !pre.isEmpty &&
      (match pre with | c :: _ => c.isAlpha | [] => false) && pre.all isSchemeChar
  then l.drop (pre.length + 1) else l

/-- `urlparse(url).netloc`: after the scheme, a netloc is present only when
the remainder starts with `//`; it extends to the next `/`, `?` or `#`. -/
def netlocOf (url : String) : String :=
  match afterScheme url.data with
  | '/' :: '/' :: r => ⟨r.takeWhile (fun c => c != '/' && c != '?' && c != '#')⟩
  | _ => ""

/-! ## Data model -/

/-- A link record as produced by the export parsers: `{url, title, tags}`. -/
structure LinkRecord where
  url : String
  title : String
  tags : List String
deriving DecidableEq, Repr

/-- The PDF filename computed in lines 201–208:
`{title or page_idx}_{domain}_{idx}.pdf` with `domain` the netloc after
`.replace("www.", "")`. -/
def filenameOf (idx : Nat) (link : LinkRecord) : String :=
  let t := sanitize_filename link.title
  let base := if t = "" then "page_" ++ toString idx else t
  let domain : String := ⟨stripWWW (netlocOf link.url).data⟩
  base ++ "_" ++ domain ++ "_" ++ toString idx ++ ".pdf"

/-- The full output path computed in lines 201–209:
`os.path.join(os.path.join(output_dir, sanitize_filename(tags[0])), filename)`
where `tags = link["tags"] or ["Unlabeled"]`. -/
def computeOutputPath (outputDir : String) (idx : Nat) (link : LinkRecord) : String :=
  let tags := if link.tags.isEmpty then ["Unlabeled"] else link.tags
  pyJoin (pyJoin outputDir (sanitize_filename (tags.headD ""))) (filenameOf idx link)

/-! ## External-world model -/

/-- Python exceptions that escape the wrappers uncaught. -/
inductive PyExc where
  | fileNotFoundError
  | keyError
  | typeError
  | attributeError
deriving DecidableEq, Repr

/-- Behaviour of one renderer subprocess invocation:
the process exits with a code within the timeout, it exceeds the timeout,
or the executable cannot be found/started at all. -/
inductive ProcBeh where
  | exits (code : Nat)
  | timesOut
  | execNotFound
deriving DecidableEq, Repr

/-- Result of the accessibility probe's `requests.get`:
a status code, or any `requests.RequestException`. -/
inductive ProbeResult where
  | status (code : Nat)
  | exc
deriving DecidableEq, Repr

/-- JSON values at the granularity `fetch_wayback_url` inspects them:
objects and strings. -/
inductive Json where
  | str (s : String)
  | obj (fields : List (String × Json))

/-- Result of the Wayback API request: a decoded JSON body, or any
`requests.RequestException` (network error, non-2xx status via
`raise_for_status`, JSON decode error). -/
inductive WaybackResp where
  | failure
  | ok (body : Json)

/-- The environment of external oracles: the filesystem snapshot at run
start, probe responses, `shutil.which` resolution, subprocess behaviour
(keyed by the number of renderer calls already made for the current task),
and Wayback API responses. -/
structure Env where
  fileExists : String → Bool
  probe : String → Nat → ProbeResult
  which : String → Option String
  run : Nat → String → String → String → Nat → ProcBeh
  wayback : String → WaybackResp

/-! ## External-call wrappers -/

/-- Embeds `save_pdf_with_chrome` (lines 40–79). `shutil.which` resolution
falls back to the bare name; a zero exit yields `True`, a non-zero exit
(`CalledProcessError`) or a timeout (`TimeoutExpired`) yields `False`, and a
missing executable raises `FileNotFoundError`, which none of the `except`
clauses catch. `attempt` indexes the renderer calls of the current task;
the subprocess command receives the executable, the URL and the
`--print-to-pdf` output path. -/
def save_pdf_with_chrome (env : Env) (attempt : Nat) (url : String)
    (output_path : String) (chrome_path : String := "chrome")
    (timeout : Nat := 25) : Except PyExc Bool :=
  let chrome_exe := (env.which chrome_path).getD chrome_path
  match env.run attempt chrome_exe url output_path timeout with
  | .exits 0 => .ok true
  | .exits (_ + 1) => .ok false
  | .timesOut => .ok false
  | .execNotFound => .error .fileNotFoundError

/-- Embeds `is_url_accessible` (lines 165–184): accessible iff the status
code is in `[200, 400)`; every `RequestException` yields `False`. -/
def is_url_accessible (env : Env) (url : String) (timeout : Nat := 5) : Bool :=
  match env.probe url timeout with
  | .status c => decide (200 ≤ c ∧ c < 400)
  | .exc => false

/-- Python `dict.get(key, default)`; on a non-dict receiver, `.get` raises
`AttributeError`. -/
def pyGetDefault (j : Json) (key : String) (default : Json) : Except PyExc Json :=
  match j with
  | .obj fields => .ok ((fields.lookup key).getD default)
  | .str _ => .error .attributeError

/-- Substring test on character lists. -/
def containsSub (pat s : List Char) : Bool :=
  s.tails.any (fun t => pat.isPrefixOf t)

/-- Python `key in container`: dict-key membership, or substring test on a
string. -/
def pyContains (j : Json) (key : String) : Except PyExc Bool :=
  match j with
  | .obj fields => .ok (fields.lookup key).isSome
  | .str s => .ok (containsSub key.data s.data)

/-- Python `container[key]`: dict lookup raising `KeyError` on a missing
key; indexing a string by a string raises `TypeError`. -/
def pyIndex (j : Json) (key : String) : Except PyExc Json :=
  match j with
  | .obj fields =>
    match fields.lookup key with
    | some v => .ok v
    | none => .error .keyError
  | .str _ => .error .typeError

/-- Embeds `fetch_wayback_url` (lines 82–101). A `RequestException` from the
request, status check or JSON decoding is caught and yields `None`; the
subsequent dictionary navigation
`data.get("archived_snapshots", {})`, `"closest" in snapshots`,
`snapshots["closest"]["url"]` is outside the `try`-protected failure modes
the spec names, so a missing `url` key raises `KeyError` uncaught. -/
def fetch_wayback_url (resp : WaybackResp) : Except PyExc (Option Json) :=
  match resp with
  | .failure => .ok none
  | .ok data =>
    match pyGetDefault data "archived_snapshots" (.obj []) with
    | .error e => .error e
    | .ok snapshots =>
      match pyContains snapshots "closest" with
      | .error e => .error e
      | .ok false => .ok none
      | .ok true =>
        match pyIndex snapshots "closest" with
        | .error e => .error e
        | .ok closest =>
          match pyIndex closest "url" with
          | .error e => .error e
          | .ok u => .ok (some u)

/-! ## The capture pipeline (`generate_pdfs`, lines 187–247) -/

/-- Observable external actions of one task, in order: the accessibility
probe, a renderer invocation (with the URL given to Chrome and the output
path), a Wayback API lookup, and a durable `logging.warning` record. -/
inductive Event where
  | probeCall (url : String)
  | renderCall (url : String) (path : String)
  | waybackCall (url : String)
  | warnLog (msg : String)
deriving DecidableEq, Repr

/-- Is this event a renderer invocation? -/
def isRenderEvent : Event → Bool
  | .renderCall _ _ => true
  | _ => false

/-- Terminal state of one task (§4.6 of the spec): skipped via the
idempotence check, rendered from the live URL, rendered from an archive
snapshot, rendered by the final direct retry, or failed. -/
inductive Outcome where
  | skipped
  | renderedLive
  | renderedArchive
  | renderedRetry
  | failed
deriving DecidableEq, Repr

/-- The final direct retry (lines 234–247): render the original URL once
more; either way a warning is durably logged. -/
def retryPhase (env : Env) (chromePath url output_path : String) (n : Nat) :
    List Event × Except PyExc Outcome :=
  match save_pdf_with_chrome env n url output_path chromePath with
  | .error e => ([.renderCall url output_path], .error e)
  | .ok true =>
    ([.renderCall url output_path,
      .warnLog ("Double check downloading snapshot directly: " ++ url ++
        " : " ++ output_path)], .ok .renderedRetry)
  | .ok false =>
    ([.renderCall url output_path,
      .warnLog ("Failed downloading snapshot directly: " ++ url)], .ok .failed)

/-- The fallback after a failed primary attempt (lines 220–247): query the
Wayback API; on a truthy snapshot URL render it at the same output path
(logging a warning on failure), otherwise run the direct retry. `n` counts
the renderer calls the task has already made. A non-string snapshot value
would reach `subprocess.run` inside the renderer and raise `TypeError`. -/
def fallbackPhase (env : Env) (chromePath url output_path : String) (n : Nat) :
    List Event × Except PyExc Outcome :=
  match fetch_wayback_url (env.wayback url) with
  | .error e => ([.waybackCall url], .error e)
  | .ok archive_url =>
    match archive_url with
    | some (.str s) =>
      if s = "" then
        let (evts, r) := retryPhase env chromePath url output_path n
        (.waybackCall url :: evts, r)
      else
        match save_pdf_with_chrome env n s output_path chromePath with
        | .error e => ([.waybackCall url, .renderCall s output_path], .error e)
        | .ok true =>
          ([.waybackCall url, .renderCall s output_path], .ok .renderedArchive)
        | .ok false =>
          ([.waybackCall url, .renderCall s output_path,
            .warnLog ("Failed downloading archive.org snapshot: " ++ s)],
           .ok .failed)
    | some (.obj fields) =>
      if fields.isEmpty then
        let (evts, r) := retryPhase env chromePath url output_path n
        (.waybackCall url :: evts, r)
      else
        ([.waybackCall url], .error .typeError)
    | none =>
      let (evts, r) := retryPhase env chromePath url output_path n
      (.waybackCall url :: evts, r)

/-- One iteration of the `for` loop in `generate_pdfs` (lines 198–247):
compute the output path, skip if a file already exists there (including
files created earlier in this run, `created`), otherwise probe, render,
and fall back. Returns the task's events and its terminal outcome (or the
uncaught exception that aborts the run). -/
def processTask (env : Env) (chromePath outputDir : String)
    (created : List String) (idx : Nat) (link : LinkRecord) :
    List Event × Except PyExc Outcome :=
  let output_path := computeOutputPath outputDir idx link
  if env.fileExists output_path || created.contains output_path then
    ([], .ok .skipped)
  else if is_url_accessible env link.url 10 then
    match save_pdf_with_chrome env 0 link.url output_path chromePath with
    | .error e => ([.probeCall link.url, .renderCall link.url output_path], .error e)
    | .ok true =>
      ([.probeCall link.url, .renderCall link.url output_path], .ok .renderedLive)
    | .ok false =>
      let (evts, r) := fallbackPhase env chromePath link.url output_path 1
      (.probeCall link.url :: .renderCall link.url output_path :: evts, r)
  else
    let (evts, r) := fallbackPhase env chromePath link.url output_path 0
    (.probeCall link.url :: evts, r)

/-- Did this outcome create a PDF at the task's output path? -/
def isRenderSuccess : Outcome → Bool
  | .renderedLive => true
  | .renderedArchive => true
  | .renderedRetry => true
  | _ => false

/-- Result of a whole run: the `(index, outcome)` pairs of the tasks that
reached a terminal state, all events in order, and the uncaught exception
if the run aborted. -/
structure RunResult where
  outcomes : List (Nat × Outcome)
  events : List Event
  exc : Option PyExc
deriving DecidableEq, Repr

/-- The `for idx, link in enumerate(links, 1)` loop: sequential tasks,
threading the set of paths created so far; an uncaught exception aborts
the remaining sequence. -/
def runTasks (env : Env) (chromePath outputDir : String) :
    Nat → List String → List LinkRecord → RunResult
  | _, _, [] => ⟨[], [], none⟩
  | idx, created, link :: rest =>
    match processTask env chromePath outputDir created idx link with
    | (evts, .error e) => ⟨[], evts, some e⟩
    | (evts, .ok oc) =>
      let created2 :=
        if isRenderSuccess oc then computeOutputPath outputDir idx link :: created
        else created
      let r := runTasks env chromePath outputDir (idx + 1) created2 rest
      ⟨(idx, oc) :: r.outcomes, evts ++ r.events, r.exc⟩

/-- Embeds `generate_pdfs` (lines 187–247). -/
def generate_pdfs (env : Env) (links : List LinkRecord)
    (outputDir chromePath : String) : RunResult :=
  runTasks env chromePath outputDir 1 [] links

/-! ## Definitions transcribed from the specification's wording
(used to compare the code's behaviour against the spec text) -/

/-- Removal of every occurrence of one character, as in the sanitizer
contract's list of characters taken one at a time. -/
def removeChar (x : Char) (l : List Char) : List Char :=
  l.filter (fun c => c != x)

/-- The sanitizer as the spec words it: remove every occurrence of each of
`\ / * ? : " < > |`, then trim leading/trailing whitespace. -/
def sanitize_spec (s : String) : String :=
  ⟨pyStrip (removeChar '|' (removeChar '>' (removeChar '<' (removeChar '"'
    (removeChar ':' (removeChar '?' (removeChar '*' (removeChar '/'
      (removeChar '\\' s.data)))))))))⟩

/-- Claim C4's domain: the URL's host with only a leading `www.` stripped. -/
def stripLeadingWWW (h : String) : String :=
  match h.data with
  | 'w' :: 'w' :: 'w' :: '.' :: rest => ⟨rest⟩
  | _ => h

/-- The output-path formula exactly as claim C4 states it:
`{outputDir}/{tag-or-Unlabeled}/{title-or-page_i}_{domain}_{i}.pdf` with the
domain stripped of a leading `www.` only. -/
def claimedPathC4 (outputDir : String) (idx : Nat) (link : LinkRecord) : String :=
  let tagSeg := match link.tags with
    | [] => "Unlabeled"
    | t :: _ => sanitize_filename t
  let t := sanitize_filename link.title
  let base := if t = "" then "page_" ++ toString idx else t
  let domain := stripLeadingWWW (netlocOf link.url)
  outputDir ++ "/" ++ tagSeg ++ "/" ++ base ++ "_" ++ domain ++ "_" ++
    toString idx ++ ".pdf"

/-- The amended C4 formula: the same template, with segments combined by
`os.path.join` semantics and the domain equal to the URL's host with every
occurrence of `www.` removed. -/
def amendedPath (outputDir : String) (idx : Nat) (link : LinkRecord) : String :=
  let tagSeg := match link.tags with
    | [] => "Unlabeled"
    | t :: _ => sanitize_filename t
  let t := sanitize_filename link.title
  let base := if t = "" then "page_" ++ toString idx else t
  let domain : String := ⟨stripWWW (netlocOf link.url).data⟩
  pyJoin (pyJoin outputDir tagSeg)
    (base ++ "_" ++ domain ++ "_" ++ toString idx ++ ".pdf")

/-! ## Concrete fixtures -/

/-- A world in which the browser executable cannot be resolved: `which`
fails and starting the subprocess raises `FileNotFoundError`. -/
def envExecMissing : Env :=
  ⟨fun _ => false, fun _ _ => .status 200, fun _ => none,
   fun _ _ _ _ _ => .execNotFound, fun _ => .failure⟩

/-- A world in which every external call fails in a caught way: the probe
raises a `RequestException`, every render exits non-zero, and the Wayback
request fails. -/
def envAllFail : Env :=
  ⟨fun _ => false, fun _ _ => .exc, fun _ => some "/usr/bin/chrome",
   fun _ _ _ _ _ => .exits 1, fun _ => .failure⟩

/-- A world in which the probe reports 404, every render exits non-zero,
and the Wayback API returns a snapshot. -/
def envArchive : Env :=
  ⟨fun _ => false, fun _ _ => .status 404, fun _ => some "/usr/bin/chrome",
   fun _ _ _ _ _ => .exits 1,
   fun _ => .ok (.obj [("archived_snapshots",
     .obj [("closest", .obj [("url", .str "http://web.archive.org/web/1/x")])])])⟩

/-- A world in which the probe raises, the Wayback request fails, and every
render exits zero — so only the final direct retry runs, and succeeds. -/
def envRetryOk : Env :=
  ⟨fun _ => false, fun _ _ => .exc, fun _ => some "/usr/bin/chrome",
   fun _ _ _ _ _ => .exits 0, fun _ => .failure⟩

/-- A world in which every output file already exists. -/
def envAllExist : Env :=
  ⟨fun _ => true, fun _ _ => .status 200, fun _ => some "/usr/bin/chrome",
   fun _ _ _ _ _ => .exits 0, fun _ => .failure⟩

/-- Sample link records. -/
def linkA : LinkRecord := ⟨"http://x.com/a", "A", ["t"]⟩

/-- A second sample link record. -/
def linkB : LinkRecord := ⟨"http://y.com/b", "B", ["t"]⟩

/-! ## Helper lemmas -/

/-- `dropWhile` is idempotent. -/
theorem dropWhile_dropWhile (p : Char → Bool) (l : List Char) :
    (l.dropWhile p).dropWhile p = l.dropWhile p := by
  induction l with
  | nil => rfl
  | cons a t ih =>
    by_cases h : p a
    · simp [List.dropWhile_cons, h, ih]
    · simp [List.dropWhile_cons, h]

/-- A prefix of a list on which `dropWhile` is the identity is itself fixed
by `dropWhile`. -/
theorem dropWhile_eq_self_of_front {p : Char → Bool} {u t : List Char}
    (h : u <+: t) (ht : t.dropWhile p = t) : u.dropWhile p = u := by
  cases u with
  | nil => rfl
  | cons a u2 =>
    by_cases hp : p a
    · exfalso
      obtain ⟨r, hr⟩ := h
      have h1 : t.dropWhile p = (u2 ++ r).dropWhile p := by
        rw [← hr]; simp [List.dropWhile_cons, hp]
      rw [ht] at h1
      have h2 : ((u2 ++ r).dropWhile p).length ≤ (u2 ++ r).length :=
        (List.dropWhile_sublist p).length_le
      rw [← h1, ← hr] at h2
      simp at h2
    · simp [List.dropWhile_cons, hp]

/-- Stripping returns a prefix of the front-stripped list. -/
theorem pyStrip_prefix_dropWhile (l : List Char) : pyStrip l <+: l.dropWhile pyWS := by
  have h := List.dropWhile_suffix (l := (l.dropWhile pyWS).reverse) pyWS
  have h2 := List.reverse_prefix.mpr h
  simpa [pyStrip] using h2

/-- The stripped list is already front-stripped. -/
theorem pyStrip_dropWhile (l : List Char) :
    (pyStrip l).dropWhile pyWS = pyStrip l :=
  dropWhile_eq_self_of_front (pyStrip_prefix_dropWhile l) (dropWhile_dropWhile pyWS l)

/-- Stripping is idempotent. -/
theorem pyStrip_idem (l : List Char) : pyStrip (pyStrip l) = pyStrip l := by
  have h2 : (pyStrip l).reverse = ((l.dropWhile pyWS).reverse).dropWhile pyWS := by
    simp [pyStrip]
  calc pyStrip (pyStrip l)
      = (((pyStrip l).dropWhile pyWS).reverse.dropWhile pyWS).reverse := rfl
    _ = ((pyStrip l).reverse.dropWhile pyWS).reverse := by rw [pyStrip_dropWhile]
    _ = (((l.dropWhile pyWS).reverse.dropWhile pyWS).dropWhile pyWS).reverse := by
        rw [h2]
    _ = ((l.dropWhile pyWS).reverse.dropWhile pyWS).reverse := by
        rw [dropWhile_dropWhile]
    _ = pyStrip l := rfl

/-- Every element of the stripped list is an element of the original. -/
theorem pyStrip_subset (l : List Char) : pyStrip l ⊆ l := fun _ h =>
  List.dropWhile_subset pyWS ((pyStrip_prefix_dropWhile l).subset h)

/-! ## Claim theorems -/

/-- **C10** (confirmed): `sanitize_filename` is idempotent — its output
contains none of the removed characters and no leading or trailing
whitespace, so a second application changes nothing. -/
theorem C10_sanitize_idempotent (s : String) :
    sanitize_filename (sanitize_filename s) = sanitize_filename s := by
  unfold sanitize_filename
  apply congrArg String.mk
  have hfilter :
      (pyStrip (s.data.filter (fun c => !pyIllegal c))).filter
        (fun c => !pyIllegal c)
      = pyStrip (s.data.filter (fun c => !pyIllegal c)) := by
    apply List.filter_eq_self.mpr
    intro a ha
    have := pyStrip_subset _ ha
    exact (List.mem_filter.mp this).2
  show pyStrip ((pyStrip (s.data.filter fun c => !pyIllegal c)).filter
    (fun c => !pyIllegal c)) = _
  rw [hfilter, pyStrip_idem]

/-- **C8** (confirmed): `sanitize_filename` removes every occurrence of
`\ / * ? : " < > |` and trims leading/trailing whitespace, with no other
change; `"Report: A/B?"` yields `"Report AB"` and an all-illegal string
yields `""`. -/
theorem C8_sanitize_contract :
    (∀ s : String, sanitize_filename s = sanitize_spec s) ∧
    sanitize_filename "Report: A/B?" = "Report AB" ∧
    sanitize_filename "\\/*?:\"<>|" = "" := by
  refine ⟨fun s => ?_, by decide, by decide⟩
  unfold sanitize_filename sanitize_spec removeChar
  apply congrArg String.mk
  apply congrArg pyStrip
  simp only [List.filter_filter]
  apply List.filter_congr
  intro x _
  simp only [pyIllegal, bne, Bool.not_or, Bool.and_assoc, Bool.and_comm,
    Bool.and_left_comm]

/-- **C4 counterexample**: for a host with a non-leading `www.` the code's
path differs from the claimed formula — `replace("www.", "")` removes every
occurrence, not only a leading one. -/
theorem C4_counterexample :
    computeOutputPath "out" 1 ⟨"http://a.www.com/x", "T", ["t"]⟩
        = "out/t/T_a.com_1.pdf" ∧
    claimedPathC4 "out" 1 ⟨"http://a.www.com/x", "T", ["t"]⟩
        = "out/t/T_a.www.com_1.pdf" ∧
    computeOutputPath "out" 1 ⟨"http://a.www.com/x", "T", ["t"]⟩
        ≠ claimedPathC4 "out" 1 ⟨"http://a.www.com/x", "T", ["t"]⟩ :=
  ⟨by decide, by decide, by decide⟩

/-- **C4** (amended): the output path follows the claimed template with
`os.path.join` semantics, except that the domain is the URL's host with
*every* occurrence of `www.` removed, not only a leading one; the scenario
record yields `out/news/My Article_example.com_1.pdf`. -/
theorem C4_path_formula :
    (∀ (outputDir : String) (idx : Nat) (link : LinkRecord),
      computeOutputPath outputDir idx link = amendedPath outputDir idx link) ∧
    computeOutputPath "out/" 1
        ⟨"http://example.com/a", "My Article", ["news", "tech"]⟩
      = "out/news/My Article_example.com_1.pdf" := by
  constructor
  · intro outputDir idx link
    unfold computeOutputPath amendedPath filenameOf
    cases h : link.tags with
    | nil =>
      have hu : sanitize_filename "Unlabeled" = "Unlabeled" := by decide
      simp [h, hu]
    | cons t ts => simp [h]
  · decide

/-- Joining with an empty middle segment collapses: `join(join(a, ""), b)`
equals `join(a, b)` (Python: `join(a, "")` is `a` with a trailing slash
ensured). -/
theorem pyJoinL_join_nil (a b : List Char) :
    pyJoinL (pyJoinL a []) b = pyJoinL a b := by
  by_cases hb : b.head? = some '/'
  · simp [pyJoinL, hb]
  · by_cases ha : a = []
    · subst ha; simp [pyJoinL, hb]
    · by_cases hl : a.getLast? = some '/'
      · simp [pyJoinL, hb, ha, hl]
      · have hne : a ++ ['/'] ≠ [] := by simp
        have hlast : (a ++ ['/']).getLast? = some '/' := List.getLast?_concat a
        simp [pyJoinL, hb, ha, hl, hne, hlast]

/-- String version of `pyJoinL_join_nil`. -/
theorem pyJoin_join_empty (a b : String) :
    pyJoin (pyJoin a "") b = pyJoin a b :=
  congrArg String.mk (pyJoinL_join_nil a.data b.data)

/-- **C9** (confirmed): when the tags list is non-empty but its first tag
sanitizes to `""`, the output directory is joined with the empty string and
the PDF lands directly in the base output directory; the `Unlabeled`
directory is used only when the tags list is empty. -/
theorem C9_empty_tag_directory (outputDir : String) (idx : Nat)
    (link : LinkRecord) :
    (∀ t rest, link.tags = t :: rest → sanitize_filename t = "" →
      computeOutputPath outputDir idx link
        = pyJoin outputDir (filenameOf idx link)) ∧
    (link.tags = [] →
      computeOutputPath outputDir idx link
        = pyJoin (pyJoin outputDir "Unlabeled") (filenameOf idx link)) := by
  constructor
  · intro t rest htags hempty
    unfold computeOutputPath
    simp [htags, hempty, pyJoin_join_empty]
  · intro htags
    have hu : sanitize_filename "Unlabeled" = "Unlabeled" := by decide
    unfold computeOutputPath
    simp [htags, hu]

/-- Witness for C9 at a concrete record whose only tag is `"::"`. -/
theorem C9_witness :
    sanitize_filename "::" = "" ∧
    computeOutputPath "out" 2 ⟨"http://e.com/x", "T", ["::"]⟩
      = pyJoin "out" (filenameOf 2 ⟨"http://e.com/x", "T", ["::"]⟩) ∧
    computeOutputPath "out" 2 ⟨"http://e.com/x", "T", ["::"]⟩
      = "out/T_e.com_2.pdf" ∧
    computeOutputPath "out" 5 ⟨"http://e.com/x", "T", []⟩
      = pyJoin (pyJoin "out" "Unlabeled") (filenameOf 5 ⟨"http://e.com/x", "T", []⟩) :=
  ⟨by decide,
   (C9_empty_tag_directory "out" 2 ⟨"http://e.com/x", "T", ["::"]⟩).1 "::" []
     rfl (by decide),
   by decide,
   (C9_empty_tag_directory "out" 5 ⟨"http://e.com/x", "T", []⟩).2 rfl⟩

/-- **C6 counterexample**: when the executable cannot be resolved
(`shutil.which` fails and the subprocess start raises `FileNotFoundError`),
the renderer wrapper does *not* return the failure boolean — the exception
escapes, because only `TimeoutExpired` and `CalledProcessError` are caught. -/
theorem C6_counterexample :
    envExecMissing.which "chrome" = none ∧
    save_pdf_with_chrome envExecMissing 0 "http://x.com/a" "out/t/a.pdf" "chrome"
      = .error .fileNotFoundError ∧
    save_pdf_with_chrome envExecMissing 0 "http://x.com/a" "out/t/a.pdf" "chrome"
      ≠ .ok false :=
  ⟨rfl, rfl, fun h => by
    have h2 : (Except.error PyExc.fileNotFoundError : Except PyExc Bool)
        = .ok false := h
    exact Except.noConfusion h2⟩

/-- **C6** (amended): the renderer wrapper returns `True` exactly when the
process exits zero within the timeout and `False` exactly on a non-zero
exit or a timeout (default 25 s); but a missing executable is *not* folded
into the failure result — it raises `FileNotFoundError` to the caller. -/
theorem C6_renderer_contract (env : Env) (attempt : Nat)
    (url output_path chrome_path : String) (timeout : Nat) :
    (save_pdf_with_chrome env attempt url output_path chrome_path timeout
        = .ok true
      ↔ env.run attempt ((env.which chrome_path).getD chrome_path) url
          output_path timeout = .exits 0) ∧
    (save_pdf_with_chrome env attempt url output_path chrome_path timeout
        = .ok false
      ↔ (env.run attempt ((env.which chrome_path).getD chrome_path) url
            output_path timeout = .timesOut ∨
         ∃ k, env.run attempt ((env.which chrome_path).getD chrome_path) url
            output_path timeout = .exits (k + 1))) ∧
    (save_pdf_with_chrome env attempt url output_path chrome_path timeout
        = .error .fileNotFoundError
      ↔ env.run attempt ((env.which chrome_path).getD chrome_path) url
          output_path timeout = .execNotFound) ∧
    save_pdf_with_chrome env attempt url output_path chrome_path
      = save_pdf_with_chrome env attempt url output_path chrome_path 25 := by
  refine ⟨?_, ?_, ?_, rfl⟩ <;>
    · unfold save_pdf_with_chrome
      cases h : env.run attempt ((env.which chrome_path).getD chrome_path) url
          output_path timeout with
      | exits code => cases code <;> simp [h]
      | timesOut => simp [h]
      | execNotFound => simp [h]

/-- **C7 counterexample**: on the decodable response
`{"archived_snapshots": {"closest": {}}}` — `closest` present but without a
`url` field — `fetch_wayback_url` raises `KeyError` instead of returning
the no-snapshot result. -/
theorem C7_counterexample :
    fetch_wayback_url (.ok (.obj [("archived_snapshots",
        .obj [("closest", .obj [])])]))
      = .error .keyError ∧
    fetch_wayback_url (.ok (.obj [("archived_snapshots",
        .obj [("closest", .obj [])])]))
      ≠ .ok none :=
  ⟨rfl, fun h => by
    have h2 : (Except.error PyExc.keyError : Except PyExc (Option Json))
        = .ok none := h
    exact Except.noConfusion h2⟩

/-- **C7** (amended): every requests-level failure (network, HTTP status,
JSON decoding) yields `None` without raising; a response without
`archived_snapshots` or without `closest` yields `None`; when
`archived_snapshots.closest.url` is present its value is returned. (When
`closest` is present without `url`, a `KeyError` escapes — see the
counterexample.) -/
theorem C7_wayback_contract :
    fetch_wayback_url .failure = .ok none ∧
    (∀ fields, fields.lookup "archived_snapshots" = none →
      fetch_wayback_url (.ok (.obj fields)) = .ok none) ∧
    (∀ fields sfields, fields.lookup "archived_snapshots" = some (.obj sfields) →
      sfields.lookup "closest" = none →
      fetch_wayback_url (.ok (.obj fields)) = .ok none) ∧
    (∀ fields sfields cfields v,
      fields.lookup "archived_snapshots" = some (.obj sfields) →
      sfields.lookup "closest" = some (.obj cfields) →
      cfields.lookup "url" = some v →
      fetch_wayback_url (.ok (.obj fields)) = .ok (some v)) := by
  refine ⟨rfl, ?_, ?_, ?_⟩
  · intro fields h
    simp [fetch_wayback_url, pyGetDefault, pyContains, h]
  · intro fields sfields h1 h2
    simp [fetch_wayback_url, pyGetDefault, pyContains, h1, h2]
  · intro fields sfields cfields v h1 h2 h3
    simp [fetch_wayback_url, pyGetDefault, pyContains, pyIndex, h1, h2, h3]

/-- Witness for C7 on a concrete well-formed API response. -/
theorem C7_witness :
    fetch_wayback_url (.ok (.obj [("archived_snapshots",
        .obj [("closest", .obj [("url", .str "http://web.archive.org/web/1/x")])])]))
      = .ok (some (.str "http://web.archive.org/web/1/x")) :=
  C7_wayback_contract.2.2.2 _ _ _ _ rfl rfl rfl

/-- A run over tasks whose output files all exist consists solely of
`Skipped` outcomes with no external events. -/
theorem runTasks_all_exist (env : Env) (chromePath outputDir : String) :
    ∀ (links : List LinkRecord) (idx : Nat) (created : List String),
      (∀ k link, links.get? k = some link →
        env.fileExists (computeOutputPath outputDir (idx + k) link) = true) →
      runTasks env chromePath outputDir idx created links
        = ⟨(List.range links.length).map (fun k => (idx + k, .skipped)), [], none⟩
  | [], idx, created, _ => by simp [runTasks]
  | l :: rest, idx, created, h => by
    have h0 : env.fileExists (computeOutputPath outputDir idx l) = true := by
      have h1 := h 0 l rfl
      simpa using h1
    have hskip : processTask env chromePath outputDir created idx l
        = ([], .ok .skipped) := by
      unfold processTask
      simp [h0]
    have ih := runTasks_all_exist env chromePath outputDir rest (idx + 1) created
      (fun k link hk => by
        have h2 := h (k + 1) link (by simpa using hk)
        have h3 : idx + (k + 1) = idx + 1 + k := by omega
        rw [h3] at h2
        exact h2)
    unfold runTasks
    rw [hskip]
    simp only [ih, isRenderSuccess, if_neg Bool.false_ne_true]
    rw [List.length_cons, List.range_succ_eq_map]
    simp only [List.map_cons, List.map_map, List.append_nil, Nat.add_zero]
    refine congrArg (RunResult.mk · [] none) ?_
    refine congrArg (_ :: ·) (List.map_congr_left ?_)
    intro a _
    simp only [Function.comp_apply, Prod.mk.injEq, and_true]
    omega

/-- **C2** (confirmed): a task whose output file already exists yields
`Skipped` with no probe, render or archive events; a run in which every
task's output file exists performs no external calls at all and yields
`Skipped` for every task. -/
theorem C2_idempotent_skip (env : Env) (chromePath outputDir : String) :
    (∀ (created : List String) (idx : Nat) (link : LinkRecord),
      env.fileExists (computeOutputPath outputDir idx link) = true →
      processTask env chromePath outputDir created idx link
        = ([], .ok .skipped)) ∧
    (∀ links : List LinkRecord,
      (∀ k link, links.get? k = some link →
        env.fileExists (computeOutputPath outputDir (k + 1) link) = true) →
      generate_pdfs env links outputDir chromePath
        = ⟨(List.range links.length).map (fun k => (k + 1, .skipped)), [], none⟩) := by
  constructor
  · intro created idx link h0
    unfold processTask
    simp [h0]
  · intro links h
    have h2 := runTasks_all_exist env chromePath outputDir links 1 []
      (fun k link hk => by
        have h3 := h k link hk
        rw [Nat.add_comm 1 k]
        exact h3)
    unfold generate_pdfs
    rw [h2]
    refine congrArg (RunResult.mk · [] none) (List.map_congr_left ?_)
    intro a _
    simp [Nat.add_comm]

/-- Witness for C2: a pre-populated output directory makes both tasks skip
with no events. -/
theorem C2_witness :
    processTask envAllExist "chrome" "out" [] 1 linkA = ([], .ok .skipped) ∧
    generate_pdfs envAllExist [linkA, linkB] "out" "chrome"
      = ⟨[(1, .skipped), (2, .skipped)], [], none⟩ :=
  ⟨(C2_idempotent_skip envAllExist "chrome" "out").1 [] 1 linkA rfl,
   ((C2_idempotent_skip envAllExist "chrome" "out").2 [linkA, linkB]
     (fun _ _ _ => rfl)).trans (by decide)⟩

/-- When the Wayback lookup yields a non-empty snapshot URL `S`, the
fallback renders `S` (and only `S`), logging a warning if that render
fails. -/
theorem fallbackPhase_archive (env : Env) (chromePath url p S : String)
    (n : Nat)
    (hway : fetch_wayback_url (env.wayback url) = .ok (some (.str S)))
    (hS : S ≠ "") :
    fallbackPhase env chromePath url p n =
      match save_pdf_with_chrome env n S p chromePath with
      | .error e => ([.waybackCall url, .renderCall S p], .error e)
      | .ok true => ([.waybackCall url, .renderCall S p], .ok .renderedArchive)
      | .ok false => ([.waybackCall url, .renderCall S p,
          .warnLog ("Failed downloading archive.org snapshot: " ++ S)],
          .ok .failed) := by
  unfold fallbackPhase
  rw [hway]
  simp [hS]

/-- When the Wayback lookup finds no snapshot, the fallback performs the
single direct retry, logging a warning either way. -/
theorem fallbackPhase_retry (env : Env) (chromePath url p : String) (n : Nat)
    (hway : fetch_wayback_url (env.wayback url) = .ok none) :
    fallbackPhase env chromePath url p n =
      match save_pdf_with_chrome env n url p chromePath with
      | .error e => ([.waybackCall url, .renderCall url p], .error e)
      | .ok true => ([.waybackCall url, .renderCall url p,
          .warnLog ("Double check downloading snapshot directly: " ++ url ++
            " : " ++ p)], .ok .renderedRetry)
      | .ok false => ([.waybackCall url, .renderCall url p,
          .warnLog ("Failed downloading snapshot directly: " ++ url)],
          .ok .failed) := by
  unfold fallbackPhase retryPhase
  rw [hway]
  cases hsp : save_pdf_with_chrome env n url p chromePath with
  | error e => simp [hsp]
  | ok b => cases b <;> simp [hsp]

/-- **C1** (confirmed): when the output file is fresh and the primary
attempt fails (inaccessible probe or failed live render) and the resolver
returns a snapshot URL `S ≠ ""`, the renderer is invoked on `S` at the same
output path, the original URL is rendered at most once (before the archive
lookup) and never again before `S`; if the archive render fails the task
ends `Failed` with a warning log record. -/
theorem C1_fallback_ordering (env : Env) (chromePath outputDir : String)
    (created : List String) (idx : Nat) (link : LinkRecord) (S : String)
    (hfresh : env.fileExists (computeOutputPath outputDir idx link) = false)
    (hcreated : computeOutputPath outputDir idx link ∉ created)
    (hfail : is_url_accessible env link.url 10 = false ∨
      save_pdf_with_chrome env 0 link.url (computeOutputPath outputDir idx link)
        chromePath = .ok false)
    (hway : fetch_wayback_url (env.wayback link.url) = .ok (some (.str S)))
    (hS : S ≠ "") :
    ((processTask env chromePath outputDir created idx link).1.filter
        isRenderEvent
      = (if is_url_accessible env link.url 10 then
          [Event.renderCall link.url (computeOutputPath outputDir idx link)]
         else [])
        ++ [Event.renderCall S (computeOutputPath outputDir idx link)]) ∧
    Event.waybackCall link.url
      ∈ (processTask env chromePath outputDir created idx link).1 ∧
    (save_pdf_with_chrome env (if is_url_accessible env link.url 10 then 1 else 0)
        S (computeOutputPath outputDir idx link) chromePath = .ok false →
      (processTask env chromePath outputDir created idx link).2 = .ok .failed ∧
      Event.warnLog ("Failed downloading archive.org snapshot: " ++ S)
        ∈ (processTask env chromePath outputDir created idx link).1) := by
  cases hacc : is_url_accessible env link.url 10 with
  | false =>
    have harch := fallbackPhase_archive env chromePath link.url
      (computeOutputPath outputDir idx link) S 0 hway hS
    cases hsp : save_pdf_with_chrome env 0 S
        (computeOutputPath outputDir idx link) chromePath with
    | error e =>
      have hpt : processTask env chromePath outputDir created idx link
          = ([.probeCall link.url, .waybackCall link.url,
              .renderCall S (computeOutputPath outputDir idx link)], .error e) := by
        simp [processTask, hfresh, hcreated, hacc, harch, hsp]
      refine ⟨by simp [hpt, hacc, isRenderEvent], by simp [hpt], fun hn => ?_⟩
      simp only [hacc] at hn
      rw [if_neg Bool.false_ne_true] at hn
      rw [hn] at hsp
      exact absurd hsp (by simp)
    | ok b =>
      cases b with
      | true =>
        have hpt : processTask env chromePath outputDir created idx link
            = ([.probeCall link.url, .waybackCall link.url,
                .renderCall S (computeOutputPath outputDir idx link)],
               .ok .renderedArchive) := by
          simp [processTask, hfresh, hcreated, hacc, harch, hsp]
        refine ⟨by simp [hpt, hacc, isRenderEvent], by simp [hpt], fun hn => ?_⟩
        simp only [hacc] at hn
        rw [if_neg Bool.false_ne_true] at hn
        rw [hn] at hsp
        exact absurd hsp (by simp)
      | false =>
        have hpt : processTask env chromePath outputDir created idx link
            = ([.probeCall link.url, .waybackCall link.url,
                .renderCall S (computeOutputPath outputDir idx link),
                .warnLog ("Failed downloading archive.org snapshot: " ++ S)],
               .ok .failed) := by
          simp [processTask, hfresh, hcreated, hacc, harch, hsp]
        exact ⟨by simp [hpt, hacc, isRenderEvent], by simp [hpt],
          fun _ => ⟨by simp [hpt], by simp [hpt]⟩⟩
  | true =>
    have hprim : save_pdf_with_chrome env 0 link.url
        (computeOutputPath outputDir idx link) chromePath = .ok false := by
      rcases hfail with h | h
      · rw [hacc] at h; cases h
      · exact h
    have harch := fallbackPhase_archive env chromePath link.url
      (computeOutputPath outputDir idx link) S 1 hway hS
    cases hsp : save_pdf_with_chrome env 1 S
        (computeOutputPath outputDir idx link) chromePath with
    | error e =>
      have hpt : processTask env chromePath outputDir created idx link
          = ([.probeCall link.url,
              .renderCall link.url (computeOutputPath outputDir idx link),
              .waybackCall link.url,
              .renderCall S (computeOutputPath outputDir idx link)], .error e) := by
        simp [processTask, hfresh, hcreated, hacc, hprim, harch, hsp]
      refine ⟨by simp [hpt, hacc, isRenderEvent], by simp [hpt], fun hn => ?_⟩
      simp at hn
      rw [hn] at hsp
      exact absurd hsp (by simp)
    | ok b =>
      cases b with
      | true =>
        have hpt : processTask env chromePath outputDir created idx link
            = ([.probeCall link.url,
                .renderCall link.url (computeOutputPath outputDir idx link),
                .waybackCall link.url,
                .renderCall S (computeOutputPath outputDir idx link)],
               .ok .renderedArchive) := by
          simp [processTask, hfresh, hcreated, hacc, hprim, harch, hsp]
        refine ⟨by simp [hpt, hacc, isRenderEvent], by simp [hpt], fun hn => ?_⟩
        simp at hn
        rw [hn] at hsp
        exact absurd hsp (by simp)
      | false =>
        have hpt : processTask env chromePath outputDir created idx link
            = ([.probeCall link.url,
                .renderCall link.url (computeOutputPath outputDir idx link),
                .waybackCall link.url,
                .renderCall S (computeOutputPath outputDir idx link),
                .warnLog ("Failed downloading archive.org snapshot: " ++ S)],
               .ok .failed) := by
          simp [processTask, hfresh, hcreated, hacc, hprim, harch, hsp]
        exact ⟨by simp [hpt, hacc, isRenderEvent], by simp [hpt],
          fun _ => ⟨by simp [hpt], by simp [hpt]⟩⟩

/-- Witness for C1: probe says 404, the resolver returns a snapshot, the
archive render exits non-zero — the task fails with the warning logged. -/
theorem C1_witness :
    ((processTask envArchive "chrome" "out" [] 1 linkA).1.filter isRenderEvent
      = (if is_url_accessible envArchive linkA.url 10 then
          [Event.renderCall linkA.url (computeOutputPath "out" 1 linkA)]
         else [])
        ++ [Event.renderCall "http://web.archive.org/web/1/x"
              (computeOutputPath "out" 1 linkA)]) ∧
    Event.waybackCall linkA.url
      ∈ (processTask envArchive "chrome" "out" [] 1 linkA).1 ∧
    (save_pdf_with_chrome envArchive
        (if is_url_accessible envArchive linkA.url 10 then 1 else 0)
        "http://web.archive.org/web/1/x" (computeOutputPath "out" 1 linkA)
        "chrome" = .ok false →
      (processTask envArchive "chrome" "out" [] 1 linkA).2 = .ok .failed ∧
      Event.warnLog ("Failed downloading archive.org snapshot: " ++
          "http://web.archive.org/web/1/x")
        ∈ (processTask envArchive "chrome" "out" [] 1 linkA).1) :=
  C1_fallback_ordering envArchive "chrome" "out" [] 1 linkA
    "http://web.archive.org/web/1/x" rfl (by simp) (Or.inl rfl) rfl (by decide)

/-- **C5** (confirmed): when the output file is fresh, the primary attempt
fails and the resolver finds no snapshot, the pipeline performs exactly one
final direct render retry of the original URL; a successful retry writes a
durable warning record, and a failed retry writes a warning and ends the
task `Failed`. -/
theorem C5_retry_on_no_snapshot (env : Env) (chromePath outputDir : String)
    (created : List String) (idx : Nat) (link : LinkRecord)
    (hfresh : env.fileExists (computeOutputPath outputDir idx link) = false)
    (hcreated : computeOutputPath outputDir idx link ∉ created)
    (hfail : is_url_accessible env link.url 10 = false ∨
      save_pdf_with_chrome env 0 link.url (computeOutputPath outputDir idx link)
        chromePath = .ok false)
    (hway : fetch_wayback_url (env.wayback link.url) = .ok none) :
    ((processTask env chromePath outputDir created idx link).1.filter
        isRenderEvent
      = (if is_url_accessible env link.url 10 then
          [Event.renderCall link.url (computeOutputPath outputDir idx link)]
         else [])
        ++ [Event.renderCall link.url (computeOutputPath outputDir idx link)]) ∧
    Event.waybackCall link.url
      ∈ (processTask env chromePath outputDir created idx link).1 ∧
    (save_pdf_with_chrome env (if is_url_accessible env link.url 10 then 1 else 0)
        link.url (computeOutputPath outputDir idx link) chromePath = .ok true →
      (processTask env chromePath outputDir created idx link).2
        = .ok .renderedRetry ∧
      Event.warnLog ("Double check downloading snapshot directly: " ++
          link.url ++ " : " ++ computeOutputPath outputDir idx link)
        ∈ (processTask env chromePath outputDir created idx link).1) ∧
    (save_pdf_with_chrome env (if is_url_accessible env link.url 10 then 1 else 0)
        link.url (computeOutputPath outputDir idx link) chromePath = .ok false →
      (processTask env chromePath outputDir created idx link).2 = .ok .failed ∧
      Event.warnLog ("Failed downloading snapshot directly: " ++ link.url)
        ∈ (processTask env chromePath outputDir created idx link).1) := by
  cases hacc : is_url_accessible env link.url 10 with
  | false =>
    have hretry := fallbackPhase_retry env chromePath link.url
      (computeOutputPath outputDir idx link) 0 hway
    cases hsp : save_pdf_with_chrome env 0 link.url
        (computeOutputPath outputDir idx link) chromePath with
    | error e =>
      have hpt : processTask env chromePath outputDir created idx link
          = ([.probeCall link.url, .waybackCall link.url,
              .renderCall link.url (computeOutputPath outputDir idx link)],
             .error e) := by
        simp [processTask, hfresh, hcreated, hacc, hretry, hsp]
      refine ⟨by simp [hpt, hacc, isRenderEvent], by simp [hpt],
        fun hn => ?_, fun hn => ?_⟩ <;>
      · simp only [hacc] at hn
        rw [if_neg Bool.false_ne_true] at hn
        rw [hn] at hsp
        exact absurd hsp (by simp)
    | ok b =>
      cases b with
      | true =>
        have hpt : processTask env chromePath outputDir created idx link
            = ([.probeCall link.url, .waybackCall link.url,
                .renderCall link.url (computeOutputPath outputDir idx link),
                .warnLog ("Double check downloading snapshot directly: " ++
                  link.url ++ " : " ++ computeOutputPath outputDir idx link)],
               .ok .renderedRetry) := by
          simp [processTask, hfresh, hcreated, hacc, hretry, hsp]
        refine ⟨by simp [hpt, hacc, isRenderEvent], by simp [hpt],
          fun _ => ⟨by simp [hpt], by simp [hpt]⟩, fun hn => ?_⟩
        simp only [hacc] at hn
        rw [if_neg Bool.false_ne_true] at hn
        rw [hn] at hsp
        exact absurd hsp (by simp)
      | false =>
        have hpt : processTask env chromePath outputDir created idx link
            = ([.probeCall link.url, .waybackCall link.url,
                .renderCall link.url (computeOutputPath outputDir idx link),
                .warnLog ("Failed downloading snapshot directly: " ++ link.url)],
               .ok .failed) := by
          simp [processTask, hfresh, hcreated, hacc, hretry, hsp]
        refine ⟨by simp [hpt, hacc, isRenderEvent], by simp [hpt],
          fun hn => ?_, fun _ => ⟨by simp [hpt], by simp [hpt]⟩⟩
        simp only [hacc] at hn
        rw [if_neg Bool.false_ne_true] at hn
        rw [hn] at hsp
        exact absurd hsp (by simp)
  | true =>
    have hprim : save_pdf_with_chrome env 0 link.url
        (computeOutputPath outputDir idx link) chromePath = .ok false := by
      rcases hfail with h | h
      · rw [hacc] at h; cases h
      · exact h
    have hretry := fallbackPhase_retry env chromePath link.url
      (computeOutputPath outputDir idx link) 1 hway
    cases hsp : save_pdf_with_chrome env 1 link.url
        (computeOutputPath outputDir idx link) chromePath with
    | error e =>
      have hpt : processTask env chromePath outputDir created idx link
          = ([.probeCall link.url,
              .renderCall link.url (computeOutputPath outputDir idx link),
              .waybackCall link.url,
              .renderCall link.url (computeOutputPath outputDir idx link)],
             .error e) := by
        simp [processTask, hfresh, hcreated, hacc, hprim, hretry, hsp]
      refine ⟨by simp [hpt, hacc, isRenderEvent], by simp [hpt],
        fun hn => ?_, fun hn => ?_⟩ <;>
      · simp at hn
        rw [hn] at hsp
        exact absurd hsp (by simp)
    | ok b =>
      cases b with
      | true =>
        have hpt : processTask env chromePath outputDir created idx link
            = ([.probeCall link.url,
                .renderCall link.url (computeOutputPath outputDir idx link),
                .waybackCall link.url,
                .renderCall link.url (computeOutputPath outputDir idx link),
                .warnLog ("Double check downloading snapshot directly: " ++
                  link.url ++ " : " ++ computeOutputPath outputDir idx link)],
               .ok .renderedRetry) := by
          simp [processTask, hfresh, hcreated, hacc, hprim, hretry, hsp]
        refine ⟨by simp [hpt, hacc, isRenderEvent], by simp [hpt],
          fun _ => ⟨by simp [hpt], by simp [hpt]⟩, fun hn => ?_⟩
        simp at hn
        rw [hn] at hsp
        exact absurd hsp (by simp)
      | false =>
        have hpt : processTask env chromePath outputDir created idx link
            = ([.probeCall link.url,
                .renderCall link.url (computeOutputPath outputDir idx link),
                .waybackCall link.url,
                .renderCall link.url (computeOutputPath outputDir idx link),
                .warnLog ("Failed downloading snapshot directly: " ++ link.url)],
               .ok .failed) := by
          simp [processTask, hfresh, hcreated, hacc, hprim, hretry, hsp]
        refine ⟨by simp [hpt, hacc, isRenderEvent], by simp [hpt],
          fun hn => ?_, fun _ => ⟨by simp [hpt], by simp [hpt]⟩⟩
        simp at hn
        rw [hn] at hsp
        exact absurd hsp (by simp)

/-- Witness for C5: probe raises, no snapshot exists, the retry exits zero —
the task succeeds via the retry and the double-check warning is logged. -/
theorem C5_witness :
    ((processTask envRetryOk "chrome" "out" [] 1 linkA).1.filter isRenderEvent
      = (if is_url_accessible envRetryOk linkA.url 10 then
          [Event.renderCall linkA.url (computeOutputPath "out" 1 linkA)]
         else [])
        ++ [Event.renderCall linkA.url (computeOutputPath "out" 1 linkA)]) ∧
    Event.waybackCall linkA.url
      ∈ (processTask envRetryOk "chrome" "out" [] 1 linkA).1 ∧
    (save_pdf_with_chrome envRetryOk
        (if is_url_accessible envRetryOk linkA.url 10 then 1 else 0)
        linkA.url (computeOutputPath "out" 1 linkA) "chrome" = .ok true →
      (processTask envRetryOk "chrome" "out" [] 1 linkA).2
        = .ok .renderedRetry ∧
      Event.warnLog ("Double check downloading snapshot directly: " ++
          linkA.url ++ " : " ++ computeOutputPath "out" 1 linkA)
        ∈ (processTask envRetryOk "chrome" "out" [] 1 linkA).1) ∧
    (save_pdf_with_chrome envRetryOk
        (if is_url_accessible envRetryOk linkA.url 10 then 1 else 0)
        linkA.url (computeOutputPath "out" 1 linkA) "chrome" = .ok false →
      (processTask envRetryOk "chrome" "out" [] 1 linkA).2 = .ok .failed ∧
      Event.warnLog ("Failed downloading snapshot directly: " ++ linkA.url)
        ∈ (processTask envRetryOk "chrome" "out" [] 1 linkA).1) :=
  C5_retry_on_no_snapshot envRetryOk "chrome" "out" [] 1 linkA
    rfl (by simp) (Or.inl rfl) rfl

/-- **C3 counterexample**: with the browser executable unresolvable, the
first task's renderer call raises `FileNotFoundError`; nothing in
`generate_pdfs` catches it, so the run aborts and the second task is never
processed — the renderer wrapper does not convert this failure mode into a
boolean at its boundary. -/
theorem C3_counterexample :
    generate_pdfs envExecMissing [linkA, linkB] "out" "chrome"
      = ⟨[], [.probeCall "http://x.com/a",
              .renderCall "http://x.com/a" "out/t/A_x.com_1.pdf"],
         some .fileNotFoundError⟩ ∧
    (generate_pdfs envExecMissing [linkA, linkB] "out" "chrome").outcomes.length
      ≠ [linkA, linkB].length := by
  refine ⟨by decide, by decide⟩

/-- Under an environment whose subprocess behaviours are all caught ones,
the renderer wrapper always returns a boolean. -/
theorem save_no_exc (env : Env)
    (hrun : ∀ a exe u p t, env.run a exe u p t ≠ .execNotFound)
    (a : Nat) (u p c : String) :
    ∃ b, save_pdf_with_chrome env a u p c = .ok b := by
  cases h : env.run a ((env.which c).getD c) u p 25 with
  | exits code =>
    cases code with
    | zero => exact ⟨true, by simp [save_pdf_with_chrome, h]⟩
    | succ k => exact ⟨false, by simp [save_pdf_with_chrome, h]⟩
  | timesOut => exact ⟨false, by simp [save_pdf_with_chrome, h]⟩
  | execNotFound => exact absurd h (hrun a _ u p 25)

/-- Under the same hypotheses plus well-behaved Wayback responses, the
fallback phase always reaches a terminal outcome. -/
theorem fallbackPhase_no_exc (env : Env) (chromePath : String)
    (hrun : ∀ a exe u p t, env.run a exe u p t ≠ .execNotFound)
    (hway : ∀ u, ∃ r, fetch_wayback_url (env.wayback u) = .ok r)
    (hstr : ∀ u v, fetch_wayback_url (env.wayback u) = .ok (some v) →
      ∃ s, v = .str s)
    (u p : String) (n : Nat) :
    ∃ evts oc, fallbackPhase env chromePath u p n = (evts, .ok oc) := by
  obtain ⟨r, hr⟩ := hway u
  cases r with
  | none =>
    obtain ⟨b, hb⟩ := save_no_exc env hrun n u p chromePath
    have hretry := fallbackPhase_retry env chromePath u p n hr
    cases b with
    | true =>
      exact ⟨[.waybackCall u, .renderCall u p,
        .warnLog ("Double check downloading snapshot directly: " ++ u ++
          " : " ++ p)], .renderedRetry, by rw [hretry, hb]⟩
    | false =>
      exact ⟨[.waybackCall u, .renderCall u p,
        .warnLog ("Failed downloading snapshot directly: " ++ u)], .failed,
        by rw [hretry, hb]⟩
  | some v =>
    obtain ⟨s, hs⟩ := hstr u v hr
    subst hs
    by_cases hS : s = ""
    · subst hS
      obtain ⟨b, hb⟩ := save_no_exc env hrun n u p chromePath
      cases b with
      | true =>
        exact ⟨[.waybackCall u, .renderCall u p,
          .warnLog ("Double check downloading snapshot directly: " ++ u ++
            " : " ++ p)], .renderedRetry,
          by unfold fallbackPhase retryPhase; rw [hr]; simp [hb]⟩
      | false =>
        exact ⟨[.waybackCall u, .renderCall u p,
          .warnLog ("Failed downloading snapshot directly: " ++ u)], .failed,
          by unfold fallbackPhase retryPhase; rw [hr]; simp [hb]⟩
    · have harch := fallbackPhase_archive env chromePath u p s n hr hS
      obtain ⟨b, hb⟩ := save_no_exc env hrun n s p chromePath
      cases b with
      | true =>
        exact ⟨[.waybackCall u, .renderCall s p], .renderedArchive,
          by rw [harch, hb]⟩
      | false =>
        exact ⟨[.waybackCall u, .renderCall s p,
          .warnLog ("Failed downloading archive.org snapshot: " ++ s)],
          .failed, by rw [harch, hb]⟩

/-- Every task reaches a terminal outcome when all wrapper failure modes
are caught ones. -/
theorem processTask_no_exc (env : Env) (chromePath outputDir : String)
    (hrun : ∀ a exe u p t, env.run a exe u p t ≠ .execNotFound)
    (hway : ∀ u, ∃ r, fetch_wayback_url (env.wayback u) = .ok r)
    (hstr : ∀ u v, fetch_wayback_url (env.wayback u) = .ok (some v) →
      ∃ s, v = .str s)
    (created : List String) (idx : Nat) (link : LinkRecord) :
    ∃ evts oc, processTask env chromePath outputDir created idx link
      = (evts, .ok oc) := by
  by_cases hex : (env.fileExists (computeOutputPath outputDir idx link) ||
      created.contains (computeOutputPath outputDir idx link)) = true
  · exact ⟨[], .skipped, by unfold processTask; rw [if_pos hex]⟩
  · cases hacc : is_url_accessible env link.url 10 with
    | false =>
      obtain ⟨evts, oc, hf⟩ := fallbackPhase_no_exc env chromePath hrun hway
        hstr link.url (computeOutputPath outputDir idx link) 0
      exact ⟨.probeCall link.url :: evts, oc,
        by unfold processTask; rw [if_neg hex]; simp [hacc, hf]⟩
    | true =>
      obtain ⟨b, hb⟩ := save_no_exc env hrun 0 link.url
        (computeOutputPath outputDir idx link) chromePath
      cases b with
      | true =>
        exact ⟨[.probeCall link.url,
          .renderCall link.url (computeOutputPath outputDir idx link)],
          .renderedLive, by
          unfold processTask; rw [if_neg hex]; simp [hacc, hb]⟩
      | false =>
        obtain ⟨evts, oc, hf⟩ := fallbackPhase_no_exc env chromePath hrun hway
          hstr link.url (computeOutputPath outputDir idx link) 1
        exact ⟨.probeCall link.url ::
          .renderCall link.url (computeOutputPath outputDir idx link) :: evts,
          oc, by unfold processTask; rw [if_neg hex]; simp [hacc, hb, hf]⟩

/-- Runs never abort and produce one terminal outcome per task, attributed
to consecutive task indices in input order, under the same hypotheses. -/
theorem runTasks_no_exc (env : Env) (chromePath outputDir : String)
    (hrun : ∀ a exe u p t, env.run a exe u p t ≠ .execNotFound)
    (hway : ∀ u, ∃ r, fetch_wayback_url (env.wayback u) = .ok r)
    (hstr : ∀ u v, fetch_wayback_url (env.wayback u) = .ok (some v) →
      ∃ s, v = .str s) :
    ∀ (links : List LinkRecord) (idx : Nat) (created : List String),
      (runTasks env chromePath outputDir idx created links).exc = none ∧
      (runTasks env chromePath outputDir idx created links).outcomes.map
        Prod.fst = List.range' idx links.length
  | [], idx, created => by simp [runTasks]
  | link :: rest, idx, created => by
    obtain ⟨evts, oc, hp⟩ := processTask_no_exc env chromePath outputDir hrun
      hway hstr created idx link
    have ih := runTasks_no_exc env chromePath outputDir hrun hway hstr rest
      (idx + 1)
      (if isRenderSuccess oc then computeOutputPath outputDir idx link :: created
       else created)
    unfold runTasks
    rw [hp]
    simpa [List.range'_succ] using ih

/-- **C3** (amended): failure isolation holds for all the failure modes the
wrappers convert to values (probe exceptions, non-zero renderer exits,
renderer timeouts, Wayback request failures and snapshot-less responses):
under any such environment no exception crosses into the per-task control
flow, and the run produces exactly one terminal outcome per task, for tasks
`1, …, n` in input order — a task whose attempts all fail does not prevent
the later tasks from being processed. It does *not* hold unconditionally —
a missing browser executable raises `FileNotFoundError` through the
renderer wrapper and aborts the remaining sequence (see the
counterexample). -/
theorem C3_failure_isolation (env : Env) (chromePath outputDir : String)
    (hrun : ∀ a exe u p t, env.run a exe u p t ≠ .execNotFound)
    (hway : ∀ u, ∃ r, fetch_wayback_url (env.wayback u) = .ok r)
    (hstr : ∀ u v, fetch_wayback_url (env.wayback u) = .ok (some v) →
      ∃ s, v = .str s) :
    ∀ links : List LinkRecord,
      (generate_pdfs env links outputDir chromePath).exc = none ∧
      (generate_pdfs env links outputDir chromePath).outcomes.map Prod.fst
        = List.range' 1 links.length ∧
      (generate_pdfs env links outputDir chromePath).outcomes.length
        = links.length := by
  intro links
  have h := runTasks_no_exc env chromePath outputDir hrun hway hstr links 1 []
  refine ⟨h.1, h.2, ?_⟩
  have hlen := congrArg List.length h.2
  simpa using hlen

/-- Witness for C3: in a world where probe, renderer and resolver all fail
in caught ways, a two-task run still yields terminal outcomes for tasks 1
and 2 and no exception. -/
theorem C3_witness :
    (generate_pdfs envAllFail [linkA, linkB] "out" "chrome").exc = none ∧
    (generate_pdfs envAllFail [linkA, linkB] "out" "chrome").outcomes.map
      Prod.fst = [1, 2] ∧
    (generate_pdfs envAllFail [linkA, linkB] "out" "chrome").outcomes.length
      = [linkA, linkB].length :=
  C3_failure_isolation envAllFail "chrome" "out"
    (fun _ _ _ _ _ h => ProcBeh.noConfusion h)
    (fun _ => ⟨none, rfl⟩)
    (fun _ v h => by
      have h2 : (Except.ok none : Except PyExc (Option Json)) = .ok (some v) := h
      simp at h2)
    [linkA, linkB]

end PocketExportPDF
